import Mathlib

/-!
Verification development for the InkSight frontend session manager and
authenticated API client (src/frontend/src/components/AuthProvider.tsx and
src/frontend/src/lib/api.ts).

The browser environment is embedded explicitly:
a localStorage instance is an association list of string keys and values;
the backend is an oracle giving the outcome of each HTTP call; JavaScript
truthiness of a nullable string (null and the empty string are falsy) is
modelled by jsTruthy.
-/

deriving instance DecidableEq for Except

namespace InkSight

/-- The User record returned by the current-user endpoint
(interface User in AuthProvider.tsx). -/
structure User where
  id : Int
  username : String
  email : String
  is_active : Bool
  created_at : String
deriving DecidableEq, Repr

/-- The credential pair sent to the login endpoint
(interface LoginRequest in AuthProvider.tsx). -/
structure LoginRequest where
  username : String
  password : String
deriving DecidableEq, Repr

/-- The body returned by the login endpoint
(interface TokenResponse in AuthProvider.tsx). -/
structure TokenResponse where
  access_token : String
  token_type : String
deriving DecidableEq, Repr

/-- Outcome of a failed HTTP call, following the axios error shape:
a network failure carries no response, a timeout is reported with a
distinguished code and no response, and a server rejection carries the
HTTP status of the response. -/
inductive ApiError where
  | network : ApiError
  | timeout : ApiError
  | http : Nat → ApiError
deriving DecidableEq, Repr

/-- The browser localStorage: an association list from keys to values.
setItem replaces any previous binding of the key. -/
structure LocalStorage where
  items : List (String × String)
deriving DecidableEq, Repr

/-- localStorage.getItem: the value bound to the key, or null. -/
def LocalStorage.getItem (s : LocalStorage) (key : String) : Option String :=
  (s.items.find? (fun p => p.1 == key)).map (fun p => p.2)

/-- localStorage.setItem: bind the key to the value, superseding any
previous binding of that key. -/
def LocalStorage.setItem (s : LocalStorage) (key value : String) : LocalStorage :=
  ⟨(key, value) :: s.items.filter (fun p => p.1 != key)⟩

/-- localStorage.removeItem: drop every binding of the key. -/
def LocalStorage.removeItem (s : LocalStorage) (key : String) : LocalStorage :=
  ⟨s.items.filter (fun p => p.1 != key)⟩

/-- The fixed storage key used by tokenStorage in AuthProvider.tsx. -/
def authTokenKey : String := "auth_token"

namespace tokenStorage

/-- tokenStorage.get: localStorage.getItem with the fixed key. -/
def get (s : LocalStorage) : Option String :=
  s.getItem authTokenKey

/-- tokenStorage.set: localStorage.setItem with the fixed key. -/
def set (s : LocalStorage) (token : String) : LocalStorage :=
  s.setItem authTokenKey token

/-- tokenStorage.remove: localStorage.removeItem with the fixed key. -/
def remove (s : LocalStorage) : LocalStorage :=
  s.removeItem authTokenKey

end tokenStorage

/-- JavaScript truthiness of a nullable string: null and the empty
string are falsy, every other string is truthy. -/
def jsTruthy : Option String → Bool
  | none => false
  | some s => s != ""

/-- The backend as an oracle: the outcome each HTTP call of the auth API
would have if issued now. -/
structure Backend where
  loginResult : LoginRequest → Except ApiError TokenResponse
  currentUser : String → Except ApiError User
  logoutResult : Except ApiError Unit

/-- The mutable client-side session state of AuthProvider: the two React
state cells (user, token) together with the persisted localStorage. -/
structure AuthState where
  user : Option User
  token : Option String
  storage : LocalStorage
deriving DecidableEq, Repr

/-- The derived isAuthenticated value exposed by the provider:
the source computes it as (not (not token)) and (not (not user)), so the
token must be JavaScript-truthy (non-null and non-empty) and the user
object non-null. -/
def isAuthenticated (s : AuthState) : Bool :=
  jsTruthy s.token && s.user.isSome

/-- The fixed demo credential pair DEMO_CREDENTIALS in AuthProvider.tsx. -/
def DEMO_CREDENTIALS : LoginRequest :=
  { username := "demo", password := "secret" }

/-- The login operation of AuthProvider.tsx: call the login endpoint;
on failure rethrow with no state change; on success persist the returned
access token, update the token cell, then call the current-user endpoint
and on its success set the user cell; a failure of that second call is
rethrown after the token was already stored. -/
def login (b : Backend) (credentials : LoginRequest) (s : AuthState) :
    Except ApiError Unit × AuthState :=
  match b.loginResult credentials with
  | .error e => (.error e, s)
  | .ok tokenResponse =>
      let newToken := tokenResponse.access_token
      let s1 : AuthState :=
        { s with storage := tokenStorage.set s.storage newToken, token := some newToken }
      match b.currentUser newToken with
      | .error e => (.error e, s1)
      | .ok userData => (.ok (), { s1 with user := some userData })

/-- The logout operation of AuthProvider.tsx: remove the persisted token,
clear both state cells, then fire the best-effort server logout call whose
outcome is swallowed by an empty catch; the operation returns no error. -/
def logout (b : Backend) (s : AuthState) : AuthState :=
  let s1 : AuthState :=
    { s with storage := tokenStorage.remove s.storage, token := none, user := none }
  let _ := b.logoutResult
  s1

/-- The demo branch of initAuth: when the deployment flag is on, log in
with the fixed demo credentials, persisting the returned token and then
fetching the user; any failure is swallowed (logged only). -/
def initDemoBranch (demoMode : Bool) (b : Backend) (s : AuthState) : AuthState :=
  if demoMode then
    match b.loginResult DEMO_CREDENTIALS with
    | .ok tokenResponse =>
        let newToken := tokenResponse.access_token
        let s1 : AuthState :=
          { s with storage := tokenStorage.set s.storage newToken, token := some newToken }
        match b.currentUser newToken with
        | .ok userData => { s1 with user := some userData }
        | .error _ => s1
    | .error _ => s
  else s

/-- The startup initAuth of AuthProvider.tsx: read the persisted token;
if it is truthy (non-null and non-empty), verify it with the current-user
endpoint, adopting token and user on success and removing the persisted
token on failure; otherwise fall through to the demo auto-login branch. -/
def initAuth (demoMode : Bool) (b : Backend) (s : AuthState) : AuthState :=
  match tokenStorage.get s.storage with
  | some storedToken =>
      if storedToken != "" then
        match b.currentUser storedToken with
        | .ok userData => { s with token := some storedToken, user := some userData }
        | .error _ => { s with storage := tokenStorage.remove s.storage }
      else initDemoBranch demoMode b s
  | none => initDemoBranch demoMode b s

/-- An outgoing HTTP request of the shared api client (src/lib/api.ts),
reduced to the fields the contract speaks about: the url, the
Authorization header if any, and the timeout in milliseconds. -/
structure RequestConfig where
  url : String
  authorization : Option String
  timeoutMs : Nat
deriving DecidableEq, Repr

/-- The instance-wide timeout passed to axios.create in api.ts:
60000 milliseconds, with the source comment naming agent responses as the
reason. -/
def apiTimeout : Nat := 60000

/-- A request as built by the api client before interception: the given
url, no Authorization header, and the instance default timeout (no
endpoint of chatAPI overrides it). -/
def apiRequest (url : String) : RequestConfig :=
  { url := url, authorization := none, timeoutMs := apiTimeout }

/-- The request interceptor of api.ts: read the persisted token and, when
it is truthy, set the Authorization header to the Bearer credential;
otherwise leave the request unchanged. -/
def requestInterceptor (storage : LocalStorage) (config : RequestConfig) :
    RequestConfig :=
  match tokenStorage.get storage with
  | some token =>
      if token != "" then { config with authorization := some ("Bearer " ++ token) }
      else config
  | none => config

/-- A request to the given url as it leaves the api client: the base
request after the request interceptor ran against the current storage. -/
def sendThroughApi (storage : LocalStorage) (url : String) : RequestConfig :=
  requestInterceptor storage (apiRequest url)

/-- What the response interceptor of api.ts did to a failed response:
the storage afterwards, whether window.location.reload was triggered, and
the error it re-rejects with. -/
structure InterceptOutcome where
  storage : LocalStorage
  reloaded : Bool
  propagated : ApiError
deriving DecidableEq, Repr

/-- The status a failed call carries, mirroring the optional chaining
error.response?.status in the response interceptor: only a server
rejection has a response with a status; network and timeout failures
carry no response. -/
def responseStatus : ApiError → Option Nat
  | .http n => some n
  | _ => none

/-- The response interceptor of api.ts on the error path: a response with
status 401 removes the persisted token and reloads the page; every error,
401 included, is re-rejected unchanged. -/
def responseInterceptorError (storage : LocalStorage) (e : ApiError) :
    InterceptOutcome :=
  if responseStatus e = some 401 then
    { storage := tokenStorage.remove storage, reloaded := true, propagated := e }
  else { storage := storage, reloaded := false, propagated := e }

namespace chatAPI

/-- The request issued by chatAPI.sendMessage: api.post on the chat path,
no per-call override. -/
def sendMessageRequest : RequestConfig := apiRequest "/api/v1/chat"

/-- The request issued by chatAPI.search. -/
def searchRequest : RequestConfig := apiRequest "/api/v1/search"

/-- The request issued by chatAPI.uploadDocument (its Content-Type
override does not touch the timeout). -/
def uploadDocumentRequest : RequestConfig := apiRequest "/api/v1/upload"

/-- The request issued by chatAPI.getStoreInfo. -/
def getStoreInfoRequest : RequestConfig := apiRequest "/api/v1/store-info"

/-- The request issued by chatAPI.clearMemory. -/
def clearMemoryRequest : RequestConfig := apiRequest "/api/v1/clear-memory"

/-- The request issued by chatAPI.getSupportedFormats. -/
def getSupportedFormatsRequest : RequestConfig := apiRequest "/api/v1/supported-formats"

/-- The request issued by chatAPI.getHealth. -/
def getHealthRequest : RequestConfig := apiRequest "/api/v1/health"

end chatAPI

/-- The session states the provider can reach: the app starts with both
cells null over an arbitrary persisted storage and runs initAuth (the
loading gate keeps consumers from acting earlier), after which any
sequence of login and logout calls may run; the backend oracle may answer
differently at every step, which models responses changing over time. -/
inductive Reachable : AuthState → Prop where
  | start : ∀ (demoMode : Bool) (b : Backend) (storage : LocalStorage),
      Reachable (initAuth demoMode b ⟨none, none, storage⟩)
  | loginStep : ∀ (s : AuthState) (b : Backend) (c : LoginRequest),
      Reachable s → Reachable (login b c s).2
  | logoutStep : ∀ (s : AuthState) (b : Backend),
      Reachable s → Reachable (logout b s)

/-! Concrete fixtures used by witnesses and counterexamples. -/

/-- A localStorage with no bindings at all. -/
def emptyStorage : LocalStorage := ⟨[]⟩

/-- A localStorage persisting the token abc123. -/
def abcStorage : LocalStorage := ⟨[(authTokenKey, "abc123")]⟩

/-- A localStorage persisting the empty string under the token key. -/
def emptyTokenStorage : LocalStorage := ⟨[(authTokenKey, "")]⟩

/-- A sample user record. -/
def sampleUser : User :=
  { id := 1, username := "demo", email := "demo@example.com",
    is_active := true, created_at := "2024-01-01T00:00:00Z" }

/-- A backend on which every call fails with a network error. -/
def failingBackend : Backend :=
  { loginResult := fun _ => .error .network
    currentUser := fun _ => .error .network
    logoutResult := .error .network }

/-- A backend that issues the token t to every login and resolves every
token to the user u. -/
def issuingBackend (t : String) (u : User) : Backend :=
  { loginResult := fun _ => .ok { access_token := t, token_type := "bearer" }
    currentUser := fun _ => .ok u
    logoutResult := .ok () }

/-- A backend whose login succeeds with the token t but whose
current-user call always fails with e. -/
def partwayBackend (t : String) (e : ApiError) : Backend :=
  { loginResult := fun _ => .ok { access_token := t, token_type := "bearer" }
    currentUser := fun _ => .error e
    logoutResult := .ok () }

/-- The session state after a fully successful login that issued the
token t1 and fetched sampleUser under it. -/
def authedT1State : AuthState :=
  { user := some sampleUser, token := some "t1", storage := ⟨[(authTokenKey, "t1")]⟩ }

/-- The session state holding sampleUser (fetched under t1) next to the
newer token t2: the stale pairing that a login whose current-user call
fails leaves behind. -/
def staleState : AuthState :=
  { user := some sampleUser, token := some "t2", storage := ⟨[(authTokenKey, "t2")]⟩ }

/-- The session state holding the empty-string token next to a user:
reachable when the backend answers a login with an empty access_token. -/
def emptyTokenState : AuthState :=
  { user := some sampleUser, token := some "", storage := emptyTokenStorage }

/-! Storage lemmas. -/

/-- Filtering a key out of an association list leaves nothing for find?
to locate under that key. -/
theorem find_key_filter (key : String) (l : List (String × String)) :
    (l.filter (fun p => p.1 != key)).find? (fun p => p.1 == key) = none := by
  rw [List.find?_eq_none]
  intro p hp
  have hmem := List.of_mem_filter hp
  simp only [bne_iff_ne, ne_eq] at hmem
  simp only [beq_iff_eq]
  exact hmem

/-- Filtering a key out of an association list leaves a zero count for
that key. -/
theorem countP_key_filter (key : String) (l : List (String × String)) :
    (l.filter (fun p => p.1 != key)).countP (fun p => p.1 == key) = 0 := by
  rw [List.countP_eq_zero]
  intro p hp
  have hmem := List.of_mem_filter hp
  simp only [bne_iff_ne, ne_eq] at hmem
  simp only [beq_iff_eq]
  exact hmem

/-- Reading the token right after storing one returns it. -/
theorem tokenStorage.get_set (s : LocalStorage) (t : String) :
    tokenStorage.get (tokenStorage.set s t) = some t := by
  unfold tokenStorage.get tokenStorage.set LocalStorage.getItem LocalStorage.setItem
  rw [List.find?_cons_of_pos]
  · rfl
  · exact beq_self_eq_true authTokenKey

/-- Reading the token right after removing it returns null. -/
theorem tokenStorage.get_remove (s : LocalStorage) :
    tokenStorage.get (tokenStorage.remove s) = none := by
  unfold tokenStorage.get tokenStorage.remove LocalStorage.getItem LocalStorage.removeItem
  rw [find_key_filter]
  rfl

/-- After a set, exactly one binding of the token key is present: the new
token supersedes every earlier one. -/
theorem tokenStorage.count_set (s : LocalStorage) (t : String) :
    (tokenStorage.set s t).items.countP (fun p => p.1 == authTokenKey) = 1 := by
  unfold tokenStorage.set LocalStorage.setItem
  rw [List.countP_cons, countP_key_filter]
  simp

/-- When a non-empty token is persisted, initAuth is the verification
branch: adopt token and user on a successful lookup, drop the persisted
token on a failed one. -/
theorem initAuth_eq_of_token (demoMode : Bool) (b : Backend) (s : AuthState)
    (t : String) (hget : tokenStorage.get s.storage = some t) (hne : t ≠ "") :
    initAuth demoMode b s =
      match b.currentUser t with
      | .ok userData => { s with token := some t, user := some userData }
      | .error _ => { s with storage := tokenStorage.remove s.storage } := by
  have hb : (t != "") = true := by simpa using hne
  unfold initAuth
  rw [hget]
  simp only [hb, if_true]

/-! Claim theorems. -/

/-- C1: if the login endpoint call inside login(credentials) fails, the
error is propagated unchanged to the caller and the whole session state —
the in-memory token, user and therefore isAuthenticated, and the
persisted storage — is exactly what it was before the call, for every
prior state. -/
theorem C1_login_endpoint_failure_propagates_and_preserves_state
    (b : Backend) (credentials : LoginRequest) (s : AuthState) (e : ApiError)
    (h : b.loginResult credentials = .error e) :
    login b credentials s = (.error e, s) := by
  unfold login
  rw [h]

/-- Witness for C1 at a concrete input: the all-failing backend rejects
the demo credentials with a network error and the pristine state is
returned untouched. -/
theorem C1_witness :
    failingBackend.loginResult DEMO_CREDENTIALS = .error .network ∧
    login failingBackend DEMO_CREDENTIALS ⟨none, none, emptyStorage⟩ =
      (.error .network, ⟨none, none, emptyStorage⟩) :=
  ⟨rfl, C1_login_endpoint_failure_propagates_and_preserves_state failingBackend
    DEMO_CREDENTIALS ⟨none, none, emptyStorage⟩ .network rfl⟩

/-- C2: logout() always ends with isAuthenticated false, both in-memory
cells null and the persisted token absent, for every prior state; the
result is the same whatever the backend answers to the best-effort server
logout call, whose outcome is swallowed and never surfaces (logout
returns a state, not a failure). -/
theorem C2_logout_always_clears_session (b : Backend) (s : AuthState) :
    (logout b s).token = none ∧
    (logout b s).user = none ∧
    isAuthenticated (logout b s) = false ∧
    tokenStorage.get (logout b s).storage = none ∧
    (∀ b2 : Backend, logout b s = logout b2 s) :=
  ⟨rfl, rfl, rfl, tokenStorage.get_remove s.storage, fun _ => rfl⟩

/-- C3 counterexample: with the empty string persisted as the token, the
stored-token branch is skipped because JavaScript treats the empty string
as falsy — even on a backend whose current-user lookup for that token
would succeed, initAuth completes unauthenticated instead of
Authenticated with the returned User, and the persisted value is not
discarded either. -/
theorem C3_counterexample :
    tokenStorage.get emptyTokenStorage = some "" ∧
    (issuingBackend "tX" sampleUser).currentUser "" = .ok sampleUser ∧
    isAuthenticated (initAuth false (issuingBackend "tX" sampleUser)
      ⟨none, none, emptyTokenStorage⟩) = false ∧
    (initAuth false (issuingBackend "tX" sampleUser)
      ⟨none, none, emptyTokenStorage⟩).user = none ∧
    tokenStorage.get (initAuth false (issuingBackend "tX" sampleUser)
      ⟨none, none, emptyTokenStorage⟩).storage = some "" := by
  decide

/-- C3 amended: for every NON-EMPTY persisted token t at startup, if the
current-user lookup for t fails, initAuth completes with isAuthenticated
false and the persisted storage no longer contains any token; if the
lookup succeeds, initAuth completes Authenticated with the returned User
and t as the session token. The empty string, though storable, is treated
as no token by the startup check and takes neither branch. -/
theorem C3_amended_init_with_nonempty_persisted_token
    (demoMode : Bool) (b : Backend) (storage : LocalStorage) (t : String)
    (hget : tokenStorage.get storage = some t) (hne : t ≠ "") :
    (∀ e : ApiError, b.currentUser t = .error e →
      isAuthenticated (initAuth demoMode b ⟨none, none, storage⟩) = false ∧
      tokenStorage.get (initAuth demoMode b ⟨none, none, storage⟩).storage = none) ∧
    (∀ u : User, b.currentUser t = .ok u →
      (initAuth demoMode b ⟨none, none, storage⟩).token = some t ∧
      (initAuth demoMode b ⟨none, none, storage⟩).user = some u ∧
      isAuthenticated (initAuth demoMode b ⟨none, none, storage⟩) = true) := by
  have h := initAuth_eq_of_token demoMode b ⟨none, none, storage⟩ t hget hne
  rw [h]
  constructor
  · intro e he
    rw [he]
    exact ⟨rfl, tokenStorage.get_remove storage⟩
  · intro u hu
    rw [hu]
    refine ⟨rfl, rfl, ?_⟩
    simp [isAuthenticated, jsTruthy, hne]

/-- Witness for the amended C3 at the concrete token abc123: the lookup
fails with a network error, and initAuth ends unauthenticated with the
token gone from storage. -/
theorem C3_witness :
    tokenStorage.get abcStorage = some "abc123" ∧
    failingBackend.currentUser "abc123" = .error .network ∧
    isAuthenticated (initAuth false failingBackend ⟨none, none, abcStorage⟩) = false ∧
    tokenStorage.get (initAuth false failingBackend
      ⟨none, none, abcStorage⟩).storage = none := by
  have h := (C3_amended_init_with_nonempty_persisted_token false failingBackend
    abcStorage "abc123" (by decide) (by decide)).1 ApiError.network rfl
  exact ⟨by decide, rfl, h.1, h.2⟩

/-- C4 counterexample: a reachable session state — reached by a login on
a backend that answers with an empty access_token, which the code stores
without validation — has both the in-memory token and the in-memory user
non-null, yet isAuthenticated is false, because the double-negation
coercion in the source treats the empty-string token as absent. So
isAuthenticated is not equivalent to both fields being non-null. -/
theorem C4_counterexample :
    Reachable emptyTokenState ∧
    emptyTokenState.token ≠ none ∧
    emptyTokenState.user ≠ none ∧
    isAuthenticated emptyTokenState = false := by
  refine ⟨?_, by decide, by decide, by decide⟩
  have h00 : initAuth false failingBackend ⟨none, none, emptyStorage⟩ =
      (⟨none, none, emptyStorage⟩ : AuthState) := rfl
  have h0 : Reachable (⟨none, none, emptyStorage⟩ : AuthState) :=
    h00 ▸ Reachable.start false failingBackend emptyStorage
  have h1 := Reachable.loginStep _ (issuingBackend "" sampleUser) DEMO_CREDENTIALS h0
  have h2 : (login (issuingBackend "" sampleUser) DEMO_CREDENTIALS
      (⟨none, none, emptyStorage⟩ : AuthState)).2 = emptyTokenState := by decide
  exact h2 ▸ h1

/-- C4 amended: in every session state (so in particular in every
reachable one), isAuthenticated is true exactly when the token is
non-null AND non-empty and the user is non-null. The only-if direction of
the original claim stands: isAuthenticated is never true with only one of
the two populated; but both being non-null is not quite sufficient, since
an empty-string token counts as absent. -/
theorem C4_amended_isAuthenticated_characterisation (s : AuthState) :
    isAuthenticated s = true ↔
      ((∃ t : String, s.token = some t ∧ t ≠ "") ∧ s.user ≠ none) := by
  unfold isAuthenticated jsTruthy
  cases s.token with
  | none => simp
  | some t =>
    cases s.user with
    | none => simp
    | some u => simp [bne_iff_ne]

/-- C5 counterexample: with the empty string persisted under the token
key, a token IS present in persisted storage, yet the request leaves the
api client with no Authorization header at all — not with the Bearer
credential built from that token — because the interceptor guards on
JavaScript truthiness. -/
theorem C5_counterexample :
    tokenStorage.get emptyTokenStorage = some "" ∧
    (sendThroughApi emptyTokenStorage "/api/v1/chat").authorization = none ∧
    (sendThroughApi emptyTokenStorage "/api/v1/chat").authorization ≠
      some ("Bearer " ++ "") := by
  decide

/-- C5 amended: for every outbound request through the api client, if a
NON-EMPTY token is persisted the request carries the header Authorization
set to the Bearer credential of that token; if no token is persisted, or
the persisted token is the empty string, the request carries no
Authorization header. -/
theorem C5_amended_bearer_header (storage : LocalStorage) (url : String) :
    (∀ t : String, tokenStorage.get storage = some t → t ≠ "" →
      (sendThroughApi storage url).authorization = some ("Bearer " ++ t)) ∧
    (tokenStorage.get storage = none →
      (sendThroughApi storage url).authorization = none) ∧
    (tokenStorage.get storage = some "" →
      (sendThroughApi storage url).authorization = none) := by
  refine ⟨?_, ?_, ?_⟩
  · intro t hget hne
    unfold sendThroughApi requestInterceptor
    rw [hget]
    simp [hne, apiRequest]
  · intro hget
    unfold sendThroughApi requestInterceptor
    rw [hget]
    rfl
  · intro hget
    unfold sendThroughApi requestInterceptor
    rw [hget]
    rfl

/-- Witness for the amended C5: with abc123 persisted, the chat request
carries the matching Bearer header. -/
theorem C5_witness :
    tokenStorage.get abcStorage = some "abc123" ∧
    ("abc123" : String) ≠ "" ∧
    (sendThroughApi abcStorage "/api/v1/chat").authorization =
      some ("Bearer " ++ "abc123") :=
  ⟨by decide, by decide,
    (C5_amended_bearer_header abcStorage "/api/v1/chat").1 "abc123" (by decide) (by decide)⟩

/-- C6 counterexample: a 401 response from the current-user endpoint,
when it answers the verification call inside login(), does not lead to
the persisted token being removed: the auth endpoints are called through
a plain axios client that has no interceptors, and login() rethrows
without cleaning up, so the just-stored token stays in storage while the
401 failure reaches the caller. -/
theorem C6_counterexample :
    (login (partwayBackend "t2" (ApiError.http 401)) DEMO_CREDENTIALS
      ⟨none, none, emptyStorage⟩).1 = .error (ApiError.http 401) ∧
    tokenStorage.get (login (partwayBackend "t2" (ApiError.http 401)) DEMO_CREDENTIALS
      ⟨none, none, emptyStorage⟩).2.storage = some "t2" := by
  decide

/-- C6 amended: every error passing the shared api client response
interceptor is re-rejected unchanged; when it is a response with status
401 the persisted token is removed (and a page reload is triggered),
whatever endpoint of the api client produced it, and every non-401 error
leaves storage untouched. Calls made through the plain axios client (the
auth endpoints) bypass this interceptor, so a 401 answering the
current-user call inside login() leaves the newly stored token in place. -/
theorem C6_amended_api_client_401_interception (storage : LocalStorage) (e : ApiError) :
    (responseInterceptorError storage e).propagated = e ∧
    (responseStatus e = some 401 →
      tokenStorage.get (responseInterceptorError storage e).storage = none ∧
      (responseInterceptorError storage e).reloaded = true) ∧
    (responseStatus e ≠ some 401 →
      (responseInterceptorError storage e).storage = storage ∧
      (responseInterceptorError storage e).reloaded = false) := by
  by_cases h : responseStatus e = some 401
  · unfold responseInterceptorError
    rw [if_pos h]
    exact ⟨rfl, fun _ => ⟨tokenStorage.get_remove storage, rfl⟩, fun hne => absurd h hne⟩
  · unfold responseInterceptorError
    rw [if_neg h]
    exact ⟨rfl, fun habs => absurd habs h, fun _ => ⟨rfl, rfl⟩⟩

/-- Witness for the amended C6: a 401 clears the abc123 token and a 500
passes through with storage unchanged. -/
theorem C6_witness :
    responseStatus (ApiError.http 401) = some 401 ∧
    tokenStorage.get (responseInterceptorError abcStorage (ApiError.http 401)).storage = none ∧
    responseStatus (ApiError.http 500) ≠ some 401 ∧
    (responseInterceptorError abcStorage (ApiError.http 500)).storage = abcStorage ∧
    (responseInterceptorError abcStorage (ApiError.http 500)).propagated = ApiError.http 500 := by
  refine ⟨by decide, ?_, by decide, ?_, ?_⟩
  · exact ((C6_amended_api_client_401_interception abcStorage (ApiError.http 401)).2.1
      (by decide)).1
  · exact ((C6_amended_api_client_401_interception abcStorage (ApiError.http 500)).2.2
      (by decide)).1
  · exact (C6_amended_api_client_401_interception abcStorage (ApiError.http 500)).1

/-- C7 counterexample: a reachable stale pairing. A fully successful
login issues t1 and fetches sampleUser under it; a second login() then
succeeds at the login endpoint with t2 but its current-user call fails
partway, and the resulting (reachable) session keeps sampleUser — the
User obtained under the previous, different token t1 — together with the
new token t2, and even reports isAuthenticated true. -/
theorem C7_counterexample :
    (login (issuingBackend "t1" sampleUser) DEMO_CREDENTIALS
      ⟨none, none, emptyStorage⟩).2 = authedT1State ∧
    (login (partwayBackend "t2" ApiError.network) DEMO_CREDENTIALS
      authedT1State).2 = staleState ∧
    Reachable staleState ∧
    staleState.user = authedT1State.user ∧
    staleState.token = some "t2" ∧
    authedT1State.token = some "t1" ∧
    ("t2" : String) ≠ "t1" ∧
    tokenStorage.get staleState.storage = some "t2" ∧
    isAuthenticated staleState = true := by
  refine ⟨by decide, by decide, ?_, by decide, by decide, by decide, by decide,
    by decide, by decide⟩
  have h00 : initAuth false failingBackend ⟨none, none, emptyStorage⟩ =
      (⟨none, none, emptyStorage⟩ : AuthState) := rfl
  have h0 : Reachable (⟨none, none, emptyStorage⟩ : AuthState) :=
    h00 ▸ Reachable.start false failingBackend emptyStorage
  have h1 := Reachable.loginStep _ (issuingBackend "t1" sampleUser) DEMO_CREDENTIALS h0
  have e1 : (login (issuingBackend "t1" sampleUser) DEMO_CREDENTIALS
      (⟨none, none, emptyStorage⟩ : AuthState)).2 = authedT1State := by decide
  rw [e1] at h1
  have h2 := Reachable.loginStep _ (partwayBackend "t2" ApiError.network)
    DEMO_CREDENTIALS h1
  have e2 : (login (partwayBackend "t2" ApiError.network) DEMO_CREDENTIALS
      authedT1State).2 = staleState := by decide
  rw [e2] at h2
  exact h2

/-- C7 amended: after a login() whose two calls both succeed, the
in-memory User is exactly the one the current-user endpoint returned for
the newly stored token, so a fully successful login never keeps a stale
User; but when the current-user call fails after a successful login
endpoint call, the previous User is retained alongside the new token —
the stale pairing the original claim ruled out is possible in exactly
this partway-failure case (the open question the spec records). -/
theorem C7_amended_user_token_pairing_after_login
    (b : Backend) (credentials : LoginRequest) (s : AuthState) (tr : TokenResponse)
    (hlogin : b.loginResult credentials = .ok tr) :
    (∀ u : User, b.currentUser tr.access_token = .ok u →
      (login b credentials s).2.user = some u ∧
      (login b credentials s).2.token = some tr.access_token ∧
      tokenStorage.get (login b credentials s).2.storage = some tr.access_token) ∧
    (∀ e : ApiError, b.currentUser tr.access_token = .error e →
      (login b credentials s).2.user = s.user ∧
      (login b credentials s).2.token = some tr.access_token ∧
      (login b credentials s).1 = .error e) := by
  unfold login
  rw [hlogin]
  dsimp only
  constructor
  · intro u hu
    rw [hu]
    exact ⟨rfl, rfl, tokenStorage.get_set s.storage tr.access_token⟩
  · intro e he
    rw [he]
    exact ⟨rfl, rfl, rfl⟩

/-- Witness for the amended C7 at a concrete partway failure: the second
login of the C7 counterexample keeps the prior user with the new token
and propagates the current-user failure. -/
theorem C7_witness :
    (partwayBackend "t2" ApiError.network).loginResult DEMO_CREDENTIALS =
      .ok { access_token := "t2", token_type := "bearer" } ∧
    (partwayBackend "t2" ApiError.network).currentUser "t2" = .error ApiError.network ∧
    (login (partwayBackend "t2" ApiError.network) DEMO_CREDENTIALS
      authedT1State).2.user = authedT1State.user ∧
    (login (partwayBackend "t2" ApiError.network) DEMO_CREDENTIALS
      authedT1State).2.token = some "t2" := by
  have h := (C7_amended_user_token_pairing_after_login
    (partwayBackend "t2" ApiError.network) DEMO_CREDENTIALS authedT1State
    { access_token := "t2", token_type := "bearer" } rfl).2 ApiError.network rfl
  exact ⟨rfl, rfl, h.1, h.2.1⟩

/-- C8: with the demo auto-login flag enabled and no token persisted at
startup, initAuth performs a login with the fixed demo credential pair
and — when the backend accepts those credentials, issuing a non-empty
access token that its current-user endpoint then resolves — completes
with isAuthenticated true, the issued token persisted, and the returned
user in memory, with no caller input involved. -/
theorem C8_demo_autologin (b : Backend) (storage : LocalStorage)
    (tr : TokenResponse) (u : User)
    (hno : tokenStorage.get storage = none)
    (hlogin : b.loginResult DEMO_CREDENTIALS = .ok tr)
    (hne : tr.access_token ≠ "")
    (hme : b.currentUser tr.access_token = .ok u) :
    (initAuth true b ⟨none, none, storage⟩).token = some tr.access_token ∧
    (initAuth true b ⟨none, none, storage⟩).user = some u ∧
    tokenStorage.get (initAuth true b ⟨none, none, storage⟩).storage =
      some tr.access_token ∧
    isAuthenticated (initAuth true b ⟨none, none, storage⟩) = true := by
  have hred : initAuth true b ⟨none, none, storage⟩ =
      { user := some u, token := some tr.access_token,
        storage := tokenStorage.set storage tr.access_token } := by
    unfold initAuth
    rw [show tokenStorage.get (⟨none, none, storage⟩ : AuthState).storage = none from hno]
    unfold initDemoBranch
    rw [if_pos rfl, hlogin]
    simp only [hme]
  rw [hred]
  refine ⟨rfl, rfl, tokenStorage.get_set storage tr.access_token, ?_⟩
  simp [isAuthenticated, jsTruthy, hne]

/-- Witness for C8: a backend issuing the non-empty token demo-token to
the demo credentials and resolving it to sampleUser makes initAuth with
the flag on complete authenticated from an empty storage. -/
theorem C8_witness :
    tokenStorage.get emptyStorage = none ∧
    (issuingBackend "demo-token" sampleUser).loginResult DEMO_CREDENTIALS =
      .ok { access_token := "demo-token", token_type := "bearer" } ∧
    ("demo-token" : String) ≠ "" ∧
    (issuingBackend "demo-token" sampleUser).currentUser "demo-token" = .ok sampleUser ∧
    isAuthenticated (initAuth true (issuingBackend "demo-token" sampleUser)
      ⟨none, none, emptyStorage⟩) = true := by
  refine ⟨rfl, rfl, by decide, rfl, ?_⟩
  exact (C8_demo_autologin (issuingBackend "demo-token" sampleUser) emptyStorage
    { access_token := "demo-token", token_type := "bearer" } sampleUser
    rfl rfl (by decide) rfl).2.2.2

/-- C9 counterexample: the chat request and the metadata requests are all
issued with the very same 60000 ms instance timeout, so the chat turn is
not given a materially longer timeout than store-info, health or
supported-formats. -/
theorem C9_counterexample :
    chatAPI.sendMessageRequest.timeoutMs = 60000 ∧
    chatAPI.getStoreInfoRequest.timeoutMs = 60000 ∧
    chatAPI.getHealthRequest.timeoutMs = 60000 ∧
    chatAPI.getSupportedFormatsRequest.timeoutMs = 60000 ∧
    ¬ chatAPI.getStoreInfoRequest.timeoutMs < chatAPI.sendMessageRequest.timeoutMs := by
  decide

/-- C9 amended: every request built by the api client, the agentic chat
turn included, carries the single instance-wide 60000 ms timeout — no
endpoint gets a longer one; a timeout failure is still distinguishable
from a server rejection in the error model, because only a rejection
carries a response status. -/
theorem C9_amended_uniform_timeout :
    (∀ url : String, (apiRequest url).timeoutMs = apiTimeout) ∧
    chatAPI.sendMessageRequest.timeoutMs = chatAPI.getStoreInfoRequest.timeoutMs ∧
    chatAPI.sendMessageRequest.timeoutMs = chatAPI.getHealthRequest.timeoutMs ∧
    chatAPI.sendMessageRequest.timeoutMs = chatAPI.getSupportedFormatsRequest.timeoutMs ∧
    (∀ n : Nat, ApiError.timeout ≠ ApiError.http n) ∧
    responseStatus ApiError.timeout = none :=
  ⟨fun _ => rfl, rfl, rfl, rfl, fun _ h => ApiError.noConfusion h, rfl⟩

/-- C10: tokenStorage round-trips over the fixed key: get after set t
returns t; get after remove returns null; set t2 after set t1 leaves get
returning t2; and after any set exactly one binding of the token key is
present, so the previous token is superseded, never kept alongside. -/
theorem C10_tokenStorage_roundtrip (s : LocalStorage) (t t1 t2 : String) :
    tokenStorage.get (tokenStorage.set s t) = some t ∧
    tokenStorage.get (tokenStorage.remove s) = none ∧
    tokenStorage.get (tokenStorage.set (tokenStorage.set s t1) t2) = some t2 ∧
    (tokenStorage.set s t).items.countP (fun p => p.1 == authTokenKey) = 1 ∧
    tokenStorage.get (tokenStorage.remove (tokenStorage.set s t)) = none :=
  ⟨tokenStorage.get_set s t, tokenStorage.get_remove s,
    tokenStorage.get_set (tokenStorage.set s t1) t2, tokenStorage.count_set s t,
    tokenStorage.get_remove (tokenStorage.set s t)⟩

end InkSight
